import Mathlib

/-!
Verification development for the SoccerGame semaphore exercise
(sources: semSharedMemPlayer.c, semSharedMemGoalie.c, semSharedMemReferee.c).

Each mutex-protected critical section of the C code is embedded as a pure
function on the shared snapshot `GameSt`; the concurrent execution of the
player, goalie and referee processes is embedded as a small-step relation
`Step` over a system state `Sys` that carries one program counter per
process, with one atomic step per critical section or semaphore operation
(the single shared mutex makes each critical section atomic).  Each call
the C code makes to `saveState` is recorded as one `LogRec` entry, newest
first, in the `log` field.
-/

namespace SoccerGame

/-- Modelled from the spec: the configuration constants of `probConst.h`
(the header is not part of the provided sources).  Fields mirror the macro
names used by the C files (`NUMTEAMPLAYERS`, `NUMTEAMGOALIES`, `NUMTEAMS`,
`NUMPLAYERS`, `NUMGOALIES`). -/
structure Config where
  NUMTEAMPLAYERS : Nat
  NUMTEAMGOALIES : Nat
  NUMTEAMS : Nat
  NUMPLAYERS : Nat
  NUMGOALIES : Nat
deriving DecidableEq, Repr

/-- Modelled from the spec: the configuration used by the concrete scenarios,
`PLAYERS_PER_TEAM=4, GOALIES_PER_TEAM=1, NUM_TEAMS=2, NUM_PLAYERS=8,
NUM_GOALIES=2`. -/
def defaultConfig : Config :=
  { NUMTEAMPLAYERS := 4, NUMTEAMGOALIES := 1, NUMTEAMS := 2,
    NUMPLAYERS := 8, NUMGOALIES := 2 }

/-- Modelled from the spec: the constraints a configuration must satisfy
(`NUM_TEAMS` fixed at 2, `GOALIES_PER_TEAM` fixed at 1, populations at least
large enough for two teams, teams nonempty). -/
def Config.valid (c : Config) : Prop :=
  c.NUMTEAMS = 2 ∧ c.NUMTEAMGOALIES = 1 ∧ 1 ≤ c.NUMTEAMPLAYERS ∧
  2 * c.NUMTEAMPLAYERS ≤ c.NUMPLAYERS ∧ 2 * c.NUMTEAMGOALIES ≤ c.NUMGOALIES

instance (c : Config) : Decidable c.valid := by
  unfold Config.valid; infer_instance

/-- The per-actor states of players and goalies (probDataStruct values used
by the sources). -/
inductive ActorState
  | ARRIVING
  | LATE
  | FORMING_TEAM
  | WAITING_TEAM
  | PLAYING
  | ENDING_GAME
deriving DecidableEq, Repr

/-- The referee states used by semSharedMemReferee.c. -/
inductive RefState
  | ARRIVINGR
  | WAITING_TEAMS
  | STARTING_GAME
  | REFEREEING
  | ENDING_GAME
deriving DecidableEq, Repr

/-- One record of the log file: each `saveState` call of the C code is
recorded as the transition it publishes (which actor moved to which state). -/
inductive LogRec
  | player (i : Nat) (st : ActorState)
  | goalie (i : Nat) (st : ActorState)
  | referee (st : RefState)
deriving DecidableEq, Repr

/-- The shared snapshot `sh->fSt` together with the two counting semaphores
the actors use as conditions (`playersWaitReferee`, `playersWaitEnd`) and the
log.  `playerStat`/`goalieStat` are the per-actor state slots (`none` while
the slot has not yet been written by its owner); `playersFree`, `goaliesFree`
and `teamId` are the shared counters of probDataStruct. -/
structure GameSt where
  playerStat : Nat → Option ActorState
  goalieStat : Nat → Option ActorState
  refereeStat : Option RefState
  playersFree : Nat
  goaliesFree : Nat
  teamId : Nat
  playersWaitReferee : Nat
  playersWaitEnd : Nat
  log : List LogRec

/-- Pointwise update of a slot array. -/
def setSlot (f : Nat → Option ActorState) (id : Nat) (v : ActorState) :
    Nat → Option ActorState :=
  fun j => if j = id then some v else f j

/-- Critical section of `arrive` in semSharedMemPlayer.c: set own slot to
ARRIVING and save the state. -/
def playerArrive (id : Nat) (g : GameSt) : GameSt :=
  { g with playerStat := setSlot g.playerStat id ActorState.ARRIVING,
           log := LogRec.player id ActorState.ARRIVING :: g.log }

/-- Critical section of `arrive` in semSharedMemGoalie.c. -/
def goalieArrive (id : Nat) (g : GameSt) : GameSt :=
  { g with goalieStat := setSlot g.goalieStat id ActorState.ARRIVING,
           log := LogRec.goalie id ActorState.ARRIVING :: g.log }

/-- The team-formation predicate tested by both `playerConstituteTeam` and
`goalieConstituteTeam`:
`playersFree >= NUMTEAMPLAYERS && goaliesFree >= NUMTEAMGOALIES`. -/
def canForm (cfg : Config) (g : GameSt) : Prop :=
  cfg.NUMTEAMPLAYERS ≤ g.playersFree ∧ cfg.NUMTEAMGOALIES ≤ g.goaliesFree

instance (cfg : Config) (g : GameSt) : Decidable (canForm cfg g) := by
  unfold canForm; infer_instance

/-- Critical section of `playerConstituteTeam` in semSharedMemPlayer.c:
if the formation predicate holds, take `team = teamId++`, subtract the team
sizes from the free counters and set own slot to FORMING_TEAM; otherwise set
own slot to LATE and return 0 (the function has no other branch). -/
def playerConstituteTeam (cfg : Config) (id : Nat) (g : GameSt) :
    Nat × GameSt :=
  if canForm cfg g then
    (g.teamId,
     { g with teamId := g.teamId + 1,
              playersFree := g.playersFree - cfg.NUMTEAMPLAYERS,
              goaliesFree := g.goaliesFree - cfg.NUMTEAMGOALIES,
              playerStat := setSlot g.playerStat id ActorState.FORMING_TEAM,
              log := LogRec.player id ActorState.FORMING_TEAM :: g.log })
  else
    (0, { g with playerStat := setSlot g.playerStat id ActorState.LATE,
                 log := LogRec.player id ActorState.LATE :: g.log })

/-- Critical section of `goalieConstituteTeam` in semSharedMemGoalie.c;
identical to the player version except for the slot array written. -/
def goalieConstituteTeam (cfg : Config) (id : Nat) (g : GameSt) :
    Nat × GameSt :=
  if canForm cfg g then
    (g.teamId,
     { g with teamId := g.teamId + 1,
              playersFree := g.playersFree - cfg.NUMTEAMPLAYERS,
              goaliesFree := g.goaliesFree - cfg.NUMTEAMGOALIES,
              goalieStat := setSlot g.goalieStat id ActorState.FORMING_TEAM,
              log := LogRec.goalie id ActorState.FORMING_TEAM :: g.log })
  else
    (0, { g with goalieStat := setSlot g.goalieStat id ActorState.LATE,
                 log := LogRec.goalie id ActorState.LATE :: g.log })

/-- Critical section of `waitReferee` in semSharedMemPlayer.c: set own slot
to PLAYING and save (the `semDown(playersWaitReferee)` that precedes it is a
separate step of the transition system). -/
def playerPlayCS (id : Nat) (g : GameSt) : GameSt :=
  { g with playerStat := setSlot g.playerStat id ActorState.PLAYING,
           log := LogRec.player id ActorState.PLAYING :: g.log }

/-- Critical section of `playUntilEnd` in semSharedMemPlayer.c. -/
def playerEndCS (id : Nat) (g : GameSt) : GameSt :=
  { g with playerStat := setSlot g.playerStat id ActorState.ENDING_GAME,
           log := LogRec.player id ActorState.ENDING_GAME :: g.log }

/-- Critical section of `waitReferee` in semSharedMemGoalie.c. -/
def goaliePlayCS (id : Nat) (g : GameSt) : GameSt :=
  { g with goalieStat := setSlot g.goalieStat id ActorState.PLAYING,
           log := LogRec.goalie id ActorState.PLAYING :: g.log }

/-- Critical section of `playUntilEnd` in semSharedMemGoalie.c. -/
def goalieEndCS (id : Nat) (g : GameSt) : GameSt :=
  { g with goalieStat := setSlot g.goalieStat id ActorState.ENDING_GAME,
           log := LogRec.goalie id ActorState.ENDING_GAME :: g.log }

/-- Critical section of `arrive` in semSharedMemReferee.c. -/
def refereeArrive (g : GameSt) : GameSt :=
  { g with refereeStat := some RefState.ARRIVINGR,
           log := LogRec.referee RefState.ARRIVINGR :: g.log }

/-- Critical section of `waitForTeams` in semSharedMemReferee.c: publish
WAITING_TEAMS (the busy-wait poll on `teamId` that follows is a separate
step of the transition system). -/
def refereeWaitCS (g : GameSt) : GameSt :=
  { g with refereeStat := some RefState.WAITING_TEAMS,
           log := LogRec.referee RefState.WAITING_TEAMS :: g.log }

/-- Critical section of `startGame` in semSharedMemReferee.c: publish
STARTING_GAME and save. -/
def refereeStartCS (g : GameSt) : GameSt :=
  { g with refereeStat := some RefState.STARTING_GAME,
           log := LogRec.referee RefState.STARTING_GAME :: g.log }

/-- The notification performed at the end of `startGame`: a single
`semUp(semgid, sh->playersWaitReferee)`. -/
def refereeStartPost (g : GameSt) : GameSt :=
  { g with playersWaitReferee := g.playersWaitReferee + 1 }

/-- `startGame` of semSharedMemReferee.c as a whole: the critical section
followed by the single post. -/
def startGame (g : GameSt) : GameSt := refereeStartPost (refereeStartCS g)

/-- Critical section of `play` in semSharedMemReferee.c. -/
def refereePlayCS (g : GameSt) : GameSt :=
  { g with refereeStat := some RefState.REFEREEING,
           log := LogRec.referee RefState.REFEREEING :: g.log }

/-- Critical section of `endGame` in semSharedMemReferee.c. -/
def refereeEndCS (g : GameSt) : GameSt :=
  { g with refereeStat := some RefState.ENDING_GAME,
           log := LogRec.referee RefState.ENDING_GAME :: g.log }

/-- The notification at the end of `endGame`: a single
`semUp(semgid, sh->playersWaitEnd)`. -/
def refereeEndPost (g : GameSt) : GameSt :=
  { g with playersWaitEnd := g.playersWaitEnd + 1 }

/-- `endGame` of semSharedMemReferee.c as a whole. -/
def endGame (g : GameSt) : GameSt := refereeEndPost (refereeEndCS g)

/-- Program counter of a player or goalie process, following `main` of
semSharedMemPlayer.c / semSharedMemGoalie.c: after `constituteTeam` returns
the team, the process terminates at once if the team is 0, and otherwise
runs `waitReferee` (a semaphore down and then a critical section) and
`playUntilEnd` (likewise). -/
inductive PPC
  | start
  | arrived
  | constituted (team : Nat)
  | gotStart (team : Nat)
  | playing (team : Nat)
  | gotEnd (team : Nat)
  | done
deriving DecidableEq, Repr

/-- Program counter of the referee process, following `main` of
semSharedMemReferee.c: arrive, publish WAITING_TEAMS, busy-wait for
`teamId >= 3`, publish STARTING_GAME, post the start semaphore once,
publish REFEREEING, publish ENDING_GAME, post the end semaphore once. -/
inductive RPC
  | start
  | arrived
  | waitPublished
  | teamsSeen
  | startLogged
  | startPosted
  | refereeing
  | endLogged
  | done
deriving DecidableEq, Repr

/-- Pointwise update of a program-counter map. -/
def setPC (f : Nat → PPC) (i : Nat) (v : PPC) : Nat → PPC :=
  fun j => if j = i then v else f j

/-- The whole system: the shared snapshot plus one program counter per
player, per goalie, and for the referee.  `formed` is a ghost counter, used
only to state invariants: it counts the successful leader branches taken so
far (the `teams_formed` of the spec); it influences no transition. -/
structure Sys where
  g : GameSt
  ppc : Nat → PPC
  gpc : Nat → PPC
  rpc : RPC
  formed : Nat

/-- Effect of one player `arrive` critical section on the system. -/
def doPArrive (i : Nat) (s : Sys) : Sys :=
  { s with g := playerArrive i s.g, ppc := setPC s.ppc i PPC.arrived }

/-- Effect of one player `playerConstituteTeam` critical section. -/
def doPConstitute (cfg : Config) (i : Nat) (s : Sys) : Sys :=
  { s with g := (playerConstituteTeam cfg i s.g).2,
           ppc := setPC s.ppc i (PPC.constituted (playerConstituteTeam cfg i s.g).1),
           formed := if canForm cfg s.g then s.formed + 1 else s.formed }

/-- Effect of a player's `semDown(playersWaitReferee)` at the top of
`waitReferee` (enabled only when the semaphore is positive). -/
def doPSemDownStart (i : Nat) (t : Nat) (s : Sys) : Sys :=
  { s with g := { s.g with playersWaitReferee := s.g.playersWaitReferee - 1 },
           ppc := setPC s.ppc i (PPC.gotStart t) }

/-- Effect of the critical section of a player's `waitReferee`. -/
def doPPlay (i : Nat) (t : Nat) (s : Sys) : Sys :=
  { s with g := playerPlayCS i s.g, ppc := setPC s.ppc i (PPC.playing t) }

/-- Effect of a player's `semDown(playersWaitEnd)` at the top of
`playUntilEnd`. -/
def doPSemDownEnd (i : Nat) (t : Nat) (s : Sys) : Sys :=
  { s with g := { s.g with playersWaitEnd := s.g.playersWaitEnd - 1 },
           ppc := setPC s.ppc i (PPC.gotEnd t) }

/-- Effect of the critical section of a player's `playUntilEnd`; the
process terminates afterwards. -/
def doPEnd (i : Nat) (s : Sys) : Sys :=
  { s with g := playerEndCS i s.g, ppc := setPC s.ppc i PPC.done }

/-- A player that obtained team 0 terminates directly. -/
def doPLateExit (i : Nat) (s : Sys) : Sys :=
  { s with ppc := setPC s.ppc i PPC.done }

/-- Effect of one goalie `arrive` critical section. -/
def doGArrive (i : Nat) (s : Sys) : Sys :=
  { s with g := goalieArrive i s.g, gpc := setPC s.gpc i PPC.arrived }

/-- Effect of one goalie `goalieConstituteTeam` critical section. -/
def doGConstitute (cfg : Config) (i : Nat) (s : Sys) : Sys :=
  { s with g := (goalieConstituteTeam cfg i s.g).2,
           gpc := setPC s.gpc i (PPC.constituted (goalieConstituteTeam cfg i s.g).1),
           formed := if canForm cfg s.g then s.formed + 1 else s.formed }

/-- Effect of a goalie's `semDown(playersWaitReferee)` (the goalie waits on
the same semaphore as the players). -/
def doGSemDownStart (i : Nat) (t : Nat) (s : Sys) : Sys :=
  { s with g := { s.g with playersWaitReferee := s.g.playersWaitReferee - 1 },
           gpc := setPC s.gpc i (PPC.gotStart t) }

/-- Effect of the critical section of a goalie's `waitReferee`. -/
def doGPlay (i : Nat) (t : Nat) (s : Sys) : Sys :=
  { s with g := goaliePlayCS i s.g, gpc := setPC s.gpc i (PPC.playing t) }

/-- Effect of a goalie's `semDown(playersWaitEnd)`. -/
def doGSemDownEnd (i : Nat) (t : Nat) (s : Sys) : Sys :=
  { s with g := { s.g with playersWaitEnd := s.g.playersWaitEnd - 1 },
           gpc := setPC s.gpc i (PPC.gotEnd t) }

/-- Effect of the critical section of a goalie's `playUntilEnd`. -/
def doGEnd (i : Nat) (s : Sys) : Sys :=
  { s with g := goalieEndCS i s.g, gpc := setPC s.gpc i PPC.done }

/-- A goalie that obtained team 0 terminates directly. -/
def doGLateExit (i : Nat) (s : Sys) : Sys :=
  { s with gpc := setPC s.gpc i PPC.done }

/-- Effect of the referee's `arrive` critical section. -/
def doRArrive (s : Sys) : Sys :=
  { s with g := refereeArrive s.g, rpc := RPC.arrived }

/-- Effect of the critical section of the referee's `waitForTeams`. -/
def doRWaitCS (s : Sys) : Sys :=
  { s with g := refereeWaitCS s.g, rpc := RPC.waitPublished }

/-- The referee leaves the busy-wait loop of `waitForTeams` (enabled only
when `teamId >= 3`; the poll reads `teamId` without the mutex). -/
def doRPollExit (s : Sys) : Sys :=
  { s with rpc := RPC.teamsSeen }

/-- Effect of the critical section of the referee's `startGame`. -/
def doRStartCS (s : Sys) : Sys :=
  { s with g := refereeStartCS s.g, rpc := RPC.startLogged }

/-- Effect of the single `semUp(playersWaitReferee)` of `startGame`. -/
def doRStartPost (s : Sys) : Sys :=
  { s with g := refereeStartPost s.g, rpc := RPC.startPosted }

/-- Effect of the critical section of the referee's `play`. -/
def doRPlayCS (s : Sys) : Sys :=
  { s with g := refereePlayCS s.g, rpc := RPC.refereeing }

/-- Effect of the critical section of the referee's `endGame`. -/
def doREndCS (s : Sys) : Sys :=
  { s with g := refereeEndCS s.g, rpc := RPC.endLogged }

/-- Effect of the single `semUp(playersWaitEnd)` of `endGame`; the referee
terminates afterwards. -/
def doREndPost (s : Sys) : Sys :=
  { s with g := refereeEndPost s.g, rpc := RPC.done }

/-- One atomic step of the concurrent system: any ready process performs its
next critical section or semaphore operation.  Semaphore downs are enabled
only when the counter is positive; the referee's poll exit is enabled only
when it observes `teamId >= 3` (the literal bound of the busy-wait loop in
`waitForTeams`). -/
inductive Step (cfg : Config) : Sys → Sys → Prop
  | pArrive (s : Sys) (i : Nat) (hi : i < cfg.NUMPLAYERS)
      (hpc : s.ppc i = PPC.start) : Step cfg s (doPArrive i s)
  | pConstitute (s : Sys) (i : Nat) (hi : i < cfg.NUMPLAYERS)
      (hpc : s.ppc i = PPC.arrived) : Step cfg s (doPConstitute cfg i s)
  | pLateExit (s : Sys) (i : Nat)
      (hpc : s.ppc i = PPC.constituted 0) : Step cfg s (doPLateExit i s)
  | pSemDownStart (s : Sys) (i t : Nat) (ht : t ≠ 0)
      (hpc : s.ppc i = PPC.constituted t)
      (hsem : 0 < s.g.playersWaitReferee) : Step cfg s (doPSemDownStart i t s)
  | pPlay (s : Sys) (i t : Nat)
      (hpc : s.ppc i = PPC.gotStart t) : Step cfg s (doPPlay i t s)
  | pSemDownEnd (s : Sys) (i t : Nat)
      (hpc : s.ppc i = PPC.playing t)
      (hsem : 0 < s.g.playersWaitEnd) : Step cfg s (doPSemDownEnd i t s)
  | pEnd (s : Sys) (i t : Nat)
      (hpc : s.ppc i = PPC.gotEnd t) : Step cfg s (doPEnd i s)
  | gArrive (s : Sys) (i : Nat) (hi : i < cfg.NUMGOALIES)
      (hpc : s.gpc i = PPC.start) : Step cfg s (doGArrive i s)
  | gConstitute (s : Sys) (i : Nat) (hi : i < cfg.NUMGOALIES)
      (hpc : s.gpc i = PPC.arrived) : Step cfg s (doGConstitute cfg i s)
  | gLateExit (s : Sys) (i : Nat)
      (hpc : s.gpc i = PPC.constituted 0) : Step cfg s (doGLateExit i s)
  | gSemDownStart (s : Sys) (i t : Nat) (ht : t ≠ 0)
      (hpc : s.gpc i = PPC.constituted t)
      (hsem : 0 < s.g.playersWaitReferee) : Step cfg s (doGSemDownStart i t s)
  | gPlay (s : Sys) (i t : Nat)
      (hpc : s.gpc i = PPC.gotStart t) : Step cfg s (doGPlay i t s)
  | gSemDownEnd (s : Sys) (i t : Nat)
      (hpc : s.gpc i = PPC.playing t)
      (hsem : 0 < s.g.playersWaitEnd) : Step cfg s (doGSemDownEnd i t s)
  | gEnd (s : Sys) (i t : Nat)
      (hpc : s.gpc i = PPC.gotEnd t) : Step cfg s (doGEnd i s)
  | rArrive (s : Sys) (hpc : s.rpc = RPC.start) : Step cfg s (doRArrive s)
  | rWaitCS (s : Sys) (hpc : s.rpc = RPC.arrived) : Step cfg s (doRWaitCS s)
  | rPollExit (s : Sys) (hpc : s.rpc = RPC.waitPublished)
      (hteams : 3 ≤ s.g.teamId) : Step cfg s (doRPollExit s)
  | rStartCS (s : Sys) (hpc : s.rpc = RPC.teamsSeen) : Step cfg s (doRStartCS s)
  | rStartPost (s : Sys) (hpc : s.rpc = RPC.startLogged) : Step cfg s (doRStartPost s)
  | rPlayCS (s : Sys) (hpc : s.rpc = RPC.startPosted) : Step cfg s (doRPlayCS s)
  | rEndCS (s : Sys) (hpc : s.rpc = RPC.refereeing) : Step cfg s (doREndCS s)
  | rEndPost (s : Sys) (hpc : s.rpc = RPC.endLogged) : Step cfg s (doREndPost s)

/-- Modelled from the spec: the initial shared snapshot written by the
harness before any actor starts (`probDataStruct` initialisation is not part
of the provided sources): free counters at the full populations, `teamId` at
1, both condition semaphores at 0, empty log, no slot written yet. -/
def initGame (cfg : Config) : GameSt :=
  { playerStat := fun _ => none, goalieStat := fun _ => none,
    refereeStat := none,
    playersFree := cfg.NUMPLAYERS, goaliesFree := cfg.NUMGOALIES,
    teamId := 1, playersWaitReferee := 0, playersWaitEnd := 0, log := [] }

/-- Initial system state: every process at the top of its `main`. -/
def initSys (cfg : Config) : Sys :=
  { g := initGame cfg, ppc := fun _ => PPC.start, gpc := fun _ => PPC.start,
    rpc := RPC.start, formed := 0 }

/-- Reachability from the initial system state by interleaved steps. -/
inductive Reach (cfg : Config) : Sys → Prop
  | init : Reach cfg (initSys cfg)
  | step {s t : Sys} : Reach cfg s → Step cfg s t → Reach cfg t

/-- The counter bookkeeping maintained by the constitute operations: the
free counters decrease in lockstep with the ghost count of successful
leader branches, and `teamId` is one more than that count. -/
def Counters (cfg : Config) (s : Sys) : Prop :=
  s.g.playersFree + cfg.NUMTEAMPLAYERS * s.formed = cfg.NUMPLAYERS ∧
  s.g.goaliesFree + cfg.NUMTEAMGOALIES * s.formed = cfg.NUMGOALIES ∧
  s.g.teamId = 1 + s.formed

theorem counters_invariant {cfg : Config} {s : Sys} (h : Reach cfg s) :
    Counters cfg s := by
  induction h with
  | init => simp [Counters, initSys, initGame]
  | @step u v hr hst ih =>
    obtain ⟨h1, h2, h3⟩ := ih
    cases hst
    case pConstitute i hi hpc =>
      by_cases hc : canForm cfg u.g
      · have hcp := hc.1
        have hcg := hc.2
        simp only [Counters, doPConstitute, playerConstituteTeam, if_pos hc,
          Nat.mul_succ]
        omega
      · simp only [Counters, doPConstitute, playerConstituteTeam, if_neg hc]
        exact ⟨h1, h2, h3⟩
    case gConstitute i hi hpc =>
      by_cases hc : canForm cfg u.g
      · have hcp := hc.1
        have hcg := hc.2
        simp only [Counters, doGConstitute, goalieConstituteTeam, if_pos hc,
          Nat.mul_succ]
        omega
      · simp only [Counters, doGConstitute, goalieConstituteTeam, if_neg hc]
        exact ⟨h1, h2, h3⟩
    all_goals exact ⟨h1, h2, h3⟩

/-- Modelled from the spec: a larger configuration that also satisfies the
configuration constraints (12 players, 3 goalies; populations above the
minimum are allowed, the surplus is meant to become LATE). -/
def bigConfig : Config :=
  { NUMTEAMPLAYERS := 4, NUMTEAMGOALIES := 1, NUMTEAMS := 2,
    NUMPLAYERS := 12, NUMGOALIES := 3 }

/-- Three players of the 12-player configuration arrive. -/
def overrunArrived : Sys :=
  doPArrive 2 (doPArrive 1 (doPArrive 0 (initSys bigConfig)))

/-- The same three players run `playerConstituteTeam` one after the other;
each finds the formation predicate true and increments `teamId`. -/
def overrunSys : Sys :=
  doPConstitute bigConfig 2 (doPConstitute bigConfig 1
    (doPConstitute bigConfig 0 overrunArrived))

theorem reach_overrunSys : Reach bigConfig overrunSys := by
  have hA : Reach bigConfig overrunArrived :=
    Reach.step (Reach.step (Reach.step Reach.init
      (Step.pArrive _ 0 (by decide) rfl))
      (Step.pArrive _ 1 (by decide) (by decide)))
      (Step.pArrive _ 2 (by decide) (by decide))
  exact Reach.step (Reach.step (Reach.step hA
    (Step.pConstitute _ 0 (by decide) (by decide)))
    (Step.pConstitute _ 1 (by decide) (by decide)))
    (Step.pConstitute _ 2 (by decide) (by decide))

/-- One arrive-then-constitute round of player `k` under the default
configuration. -/
def serialP (k : Nat) (s : Sys) : Sys :=
  doPConstitute defaultConfig k (doPArrive k s)

/-- One arrive-then-constitute round of goalie `k` under the default
configuration. -/
def serialG (k : Nat) (s : Sys) : Sys :=
  doGConstitute defaultConfig k (doGArrive k s)

/-- The serial schedule of the exact-fit scenario: players 0..7 each run
`arrive` and `playerConstituteTeam` in order, then goalies 0 and 1 do the
same. -/
def serialAll : Sys :=
  serialG 1 (serialG 0 (serialP 7 (serialP 6 (serialP 5 (serialP 4
    (serialP 3 (serialP 2 (serialP 1 (serialP 0 (initSys defaultConfig))))))))))

/-- After the serial schedule, every actor that obtained team 0 terminates
(the `main` of its process exits without calling `waitReferee`). -/
def serialDone : Sys :=
  doGLateExit 1 (doGLateExit 0 (doPLateExit 7 (doPLateExit 6 (doPLateExit 5
    (doPLateExit 4 (doPLateExit 3 (doPLateExit 2 serialAll)))))))

theorem reach_serialDone : Reach defaultConfig serialDone := by
  have h0 : Reach defaultConfig (serialP 0 (initSys defaultConfig)) :=
    Reach.step (Reach.step Reach.init (Step.pArrive _ 0 (by decide) rfl))
      (Step.pConstitute _ 0 (by decide) (by decide))
  have h1 : Reach defaultConfig (serialP 1 (serialP 0 (initSys defaultConfig))) :=
    Reach.step (Reach.step h0 (Step.pArrive _ 1 (by decide) (by decide)))
      (Step.pConstitute _ 1 (by decide) (by decide))
  have h2 : Reach defaultConfig (serialP 2 (serialP 1 (serialP 0 (initSys defaultConfig)))) :=
    Reach.step (Reach.step h1 (Step.pArrive _ 2 (by decide) (by decide)))
      (Step.pConstitute _ 2 (by decide) (by decide))
  have h3 : Reach defaultConfig (serialP 3 (serialP 2 (serialP 1 (serialP 0
      (initSys defaultConfig))))) :=
    Reach.step (Reach.step h2 (Step.pArrive _ 3 (by decide) (by decide)))
      (Step.pConstitute _ 3 (by decide) (by decide))
  have h4 : Reach defaultConfig (serialP 4 (serialP 3 (serialP 2 (serialP 1 (serialP 0
      (initSys defaultConfig)))))) :=
    Reach.step (Reach.step h3 (Step.pArrive _ 4 (by decide) (by decide)))
      (Step.pConstitute _ 4 (by decide) (by decide))
  have h5 : Reach defaultConfig (serialP 5 (serialP 4 (serialP 3 (serialP 2 (serialP 1
      (serialP 0 (initSys defaultConfig))))))) :=
    Reach.step (Reach.step h4 (Step.pArrive _ 5 (by decide) (by decide)))
      (Step.pConstitute _ 5 (by decide) (by decide))
  have h6 : Reach defaultConfig (serialP 6 (serialP 5 (serialP 4 (serialP 3 (serialP 2
      (serialP 1 (serialP 0 (initSys defaultConfig)))))))) :=
    Reach.step (Reach.step h5 (Step.pArrive _ 6 (by decide) (by decide)))
      (Step.pConstitute _ 6 (by decide) (by decide))
  have h7 : Reach defaultConfig (serialP 7 (serialP 6 (serialP 5 (serialP 4 (serialP 3
      (serialP 2 (serialP 1 (serialP 0 (initSys defaultConfig))))))))) :=
    Reach.step (Reach.step h6 (Step.pArrive _ 7 (by decide) (by decide)))
      (Step.pConstitute _ 7 (by decide) (by decide))
  have hg0 : Reach defaultConfig (serialG 0 (serialP 7 (serialP 6 (serialP 5 (serialP 4
      (serialP 3 (serialP 2 (serialP 1 (serialP 0 (initSys defaultConfig)))))))))) :=
    Reach.step (Reach.step h7 (Step.gArrive _ 0 (by decide) (by decide)))
      (Step.gConstitute _ 0 (by decide) (by decide))
  have hgAll : Reach defaultConfig serialAll :=
    Reach.step (Reach.step hg0 (Step.gArrive _ 1 (by decide) (by decide)))
      (Step.gConstitute _ 1 (by decide) (by decide))
  exact Reach.step (Reach.step (Reach.step (Reach.step (Reach.step (Reach.step
    (Reach.step (Reach.step hgAll
    (Step.pLateExit _ 2 (by decide))) (Step.pLateExit _ 3 (by decide)))
    (Step.pLateExit _ 4 (by decide))) (Step.pLateExit _ 5 (by decide)))
    (Step.pLateExit _ 6 (by decide))) (Step.pLateExit _ 7 (by decide)))
    (Step.gLateExit _ 0 (by decide))) (Step.gLateExit _ 1 (by decide))

/-- Number of slots among `0..n-1` holding state `v`. -/
def countStat (f : Nat → Option ActorState) (v : ActorState) (n : Nat) : Nat :=
  (List.range n).countP (fun i => decide (f i = some v))

/-- Number of processes among `0..n-1` whose program counter is `v`. -/
def countPC (f : Nat → PPC) (v : PPC) (n : Nat) : Nat :=
  (List.range n).countP (fun i => decide (f i = v))

/-- The log contains the referee's STARTING_GAME record. -/
def hasStarting (l : List LogRec) : Prop :=
  LogRec.referee RefState.STARTING_GAME ∈ l

/-- The record publishes a teammate's PLAYING state. -/
def isPlayingRec : LogRec → Prop
  | LogRec.player _ st => st = ActorState.PLAYING
  | LogRec.goalie _ st => st = ActorState.PLAYING
  | LogRec.referee _ => False

/-- In the newest-first log, the referee's STARTING_GAME record occurs
strictly earlier (deeper in the list) than every teammate PLAYING record. -/
def startBeforePlay : List LogRec → Prop
  | [] => True
  | r :: l => (isPlayingRec r → hasStarting l) ∧ startBeforePlay l

/-- Referee program counters at which the STARTING_GAME record has already
been written. -/
def rpcStarted : RPC → Prop
  | RPC.startLogged => True
  | RPC.startPosted => True
  | RPC.refereeing => True
  | RPC.endLogged => True
  | RPC.done => True
  | _ => False

theorem hasStarting_cons (r : LogRec) {l : List LogRec} (h : hasStarting l) :
    hasStarting (r :: l) :=
  List.mem_cons_of_mem r h

/-- The inductive invariant behind the start/playing ordering: the log is
ordered; the start semaphore is positive only after STARTING_GAME was
logged; a process that has consumed a start signal saw STARTING_GAME
logged; and the referee past `startGame`'s critical section has logged it. -/
def StartInv (s : Sys) : Prop :=
  startBeforePlay s.g.log ∧
  (0 < s.g.playersWaitReferee → hasStarting s.g.log) ∧
  (∀ j t, s.ppc j = PPC.gotStart t → hasStarting s.g.log) ∧
  (∀ j t, s.gpc j = PPC.gotStart t → hasStarting s.g.log) ∧
  (rpcStarted s.rpc → hasStarting s.g.log)

theorem gotStart_clause_update {f : Nat → PPC} {i : Nat} {v : PPC} {P : Prop}
    (hold : ∀ j t, f j = PPC.gotStart t → P)
    (hv : ∀ t, v ≠ PPC.gotStart t) :
    ∀ j t, setPC f i v j = PPC.gotStart t → P := by
  intro j t hj
  by_cases hji : j = i
  · subst hji
    simp only [setPC, if_pos rfl] at hj
    exact absurd hj (hv t)
  · simp only [setPC, if_neg hji] at hj
    exact hold j t hj

theorem startInv_reach {cfg : Config} {s : Sys} (h : Reach cfg s) :
    StartInv s := by
  induction h with
  | init =>
    refine ⟨trivial, ?_, ?_, ?_, ?_⟩
    · intro hp; exact absurd hp (by simp [initSys, initGame])
    · intro j t hj; exact absurd hj (by simp [initSys])
    · intro j t hj; exact absurd hj (by simp [initSys])
    · intro hr; exact absurd hr (by simp [initSys, rpcStarted])
  | @step u v hr hst ih =>
    obtain ⟨ihA, ihB, ihC, ihD, ihE⟩ := ih
    cases hst
    case pArrive i hi hpc =>
      refine ⟨⟨fun hpl => absurd hpl (by simp [isPlayingRec]), ihA⟩,
        fun hp => hasStarting_cons _ (ihB hp),
        gotStart_clause_update (fun j t hj => hasStarting_cons _ (ihC j t hj))
          (by intro t ht; cases ht),
        fun j t hj => hasStarting_cons _ (ihD j t hj),
        fun hrp => hasStarting_cons _ (ihE hrp)⟩
    case pConstitute i hi hpc =>
      by_cases hc : canForm cfg u.g
      · simp only [StartInv, doPConstitute, playerConstituteTeam, if_pos hc]
        exact ⟨⟨fun hpl => absurd hpl (by simp [isPlayingRec]), ihA⟩,
          fun hp => hasStarting_cons _ (ihB hp),
          gotStart_clause_update (fun j t hj => hasStarting_cons _ (ihC j t hj))
            (by intro t ht; cases ht),
          fun j t hj => hasStarting_cons _ (ihD j t hj),
          fun hrp => hasStarting_cons _ (ihE hrp)⟩
      · simp only [StartInv, doPConstitute, playerConstituteTeam, if_neg hc]
        exact ⟨⟨fun hpl => absurd hpl (by simp [isPlayingRec]), ihA⟩,
          fun hp => hasStarting_cons _ (ihB hp),
          gotStart_clause_update (fun j t hj => hasStarting_cons _ (ihC j t hj))
            (by intro t ht; cases ht),
          fun j t hj => hasStarting_cons _ (ihD j t hj),
          fun hrp => hasStarting_cons _ (ihE hrp)⟩
    case pLateExit i hpc =>
      exact ⟨ihA, ihB,
        gotStart_clause_update ihC (by intro t ht; cases ht), ihD, ihE⟩
    case pSemDownStart i t ht hpc hsem =>
      exact ⟨ihA, fun _ => ihB hsem, fun _ _ _ => ihB hsem, ihD, ihE⟩
    case pPlay i t hpc =>
      refine ⟨⟨fun _ => ihC i t hpc, ihA⟩,
        fun hp => hasStarting_cons _ (ihB hp),
        gotStart_clause_update (fun j t2 hj => hasStarting_cons _ (ihC j t2 hj))
          (by intro t2 ht2; cases ht2),
        fun j t2 hj => hasStarting_cons _ (ihD j t2 hj),
        fun hrp => hasStarting_cons _ (ihE hrp)⟩
    case pSemDownEnd i t hpc hsem =>
      exact ⟨ihA, ihB,
        gotStart_clause_update ihC (by intro t2 ht2; cases ht2), ihD, ihE⟩
    case pEnd i t hpc =>
      refine ⟨⟨fun hpl => absurd hpl (by simp [isPlayingRec]), ihA⟩,
        fun hp => hasStarting_cons _ (ihB hp),
        gotStart_clause_update (fun j t2 hj => hasStarting_cons _ (ihC j t2 hj))
          (by intro t2 ht2; cases ht2),
        fun j t2 hj => hasStarting_cons _ (ihD j t2 hj),
        fun hrp => hasStarting_cons _ (ihE hrp)⟩
    case gArrive i hi hpc =>
      refine ⟨⟨fun hpl => absurd hpl (by simp [isPlayingRec]), ihA⟩,
        fun hp => hasStarting_cons _ (ihB hp),
        fun j t hj => hasStarting_cons _ (ihC j t hj),
        gotStart_clause_update (fun j t hj => hasStarting_cons _ (ihD j t hj))
          (by intro t ht; cases ht),
        fun hrp => hasStarting_cons _ (ihE hrp)⟩
    case gConstitute i hi hpc =>
      by_cases hc : canForm cfg u.g
      · simp only [StartInv, doGConstitute, goalieConstituteTeam, if_pos hc]
        exact ⟨⟨fun hpl => absurd hpl (by simp [isPlayingRec]), ihA⟩,
          fun hp => hasStarting_cons _ (ihB hp),
          fun j t hj => hasStarting_cons _ (ihC j t hj),
          gotStart_clause_update (fun j t hj => hasStarting_cons _ (ihD j t hj))
            (by intro t ht; cases ht),
          fun hrp => hasStarting_cons _ (ihE hrp)⟩
      · simp only [StartInv, doGConstitute, goalieConstituteTeam, if_neg hc]
        exact ⟨⟨fun hpl => absurd hpl (by simp [isPlayingRec]), ihA⟩,
          fun hp => hasStarting_cons _ (ihB hp),
          fun j t hj => hasStarting_cons _ (ihC j t hj),
          gotStart_clause_update (fun j t hj => hasStarting_cons _ (ihD j t hj))
            (by intro t ht; cases ht),
          fun hrp => hasStarting_cons _ (ihE hrp)⟩
    case gLateExit i hpc =>
      exact ⟨ihA, ihB, ihC,
        gotStart_clause_update ihD (by intro t ht; cases ht), ihE⟩
    case gSemDownStart i t ht hpc hsem =>
      exact ⟨ihA, fun _ => ihB hsem, ihC, fun _ _ _ => ihB hsem, ihE⟩
    case gPlay i t hpc =>
      refine ⟨⟨fun _ => ihD i t hpc, ihA⟩,
        fun hp => hasStarting_cons _ (ihB hp),
        fun j t2 hj => hasStarting_cons _ (ihC j t2 hj),
        gotStart_clause_update (fun j t2 hj => hasStarting_cons _ (ihD j t2 hj))
          (by intro t2 ht2; cases ht2),
        fun hrp => hasStarting_cons _ (ihE hrp)⟩
    case gSemDownEnd i t hpc hsem =>
      exact ⟨ihA, ihB, ihC,
        gotStart_clause_update ihD (by intro t2 ht2; cases ht2), ihE⟩
    case gEnd i t hpc =>
      refine ⟨⟨fun hpl => absurd hpl (by simp [isPlayingRec]), ihA⟩,
        fun hp => hasStarting_cons _ (ihB hp),
        fun j t2 hj => hasStarting_cons _ (ihC j t2 hj),
        gotStart_clause_update (fun j t2 hj => hasStarting_cons _ (ihD j t2 hj))
          (by intro t2 ht2; cases ht2),
        fun hrp => hasStarting_cons _ (ihE hrp)⟩
    case rArrive hpc =>
      refine ⟨⟨fun hpl => absurd hpl (by simp [isPlayingRec]), ihA⟩,
        fun hp => hasStarting_cons _ (ihB hp),
        fun j t hj => hasStarting_cons _ (ihC j t hj),
        fun j t hj => hasStarting_cons _ (ihD j t hj),
        fun hrp => absurd hrp (by simp [doRArrive, rpcStarted])⟩
    case rWaitCS hpc =>
      refine ⟨⟨fun hpl => absurd hpl (by simp [isPlayingRec]), ihA⟩,
        fun hp => hasStarting_cons _ (ihB hp),
        fun j t hj => hasStarting_cons _ (ihC j t hj),
        fun j t hj => hasStarting_cons _ (ihD j t hj),
        fun hrp => absurd hrp (by simp [doRWaitCS, rpcStarted])⟩
    case rPollExit hpc hteams =>
      exact ⟨ihA, ihB, ihC, ihD,
        fun hrp => absurd hrp (by simp [doRPollExit, rpcStarted])⟩
    case rStartCS hpc =>
      refine ⟨⟨fun hpl => absurd hpl (by simp [isPlayingRec]), ihA⟩,
        fun hp => hasStarting_cons _ (ihB hp),
        fun j t hj => hasStarting_cons _ (ihC j t hj),
        fun j t hj => hasStarting_cons _ (ihD j t hj),
        fun _ => List.mem_cons_self _ _⟩
    case rStartPost hpc =>
      have hstart : hasStarting u.g.log := ihE (by rw [hpc]; trivial)
      exact ⟨ihA, fun _ => hstart, ihC, ihD, fun _ => hstart⟩
    case rPlayCS hpc =>
      have hstart : hasStarting u.g.log := ihE (by rw [hpc]; trivial)
      refine ⟨⟨fun hpl => absurd hpl (by simp [isPlayingRec]), ihA⟩,
        fun hp => hasStarting_cons _ (ihB hp),
        fun j t hj => hasStarting_cons _ (ihC j t hj),
        fun j t hj => hasStarting_cons _ (ihD j t hj),
        fun _ => hasStarting_cons _ hstart⟩
    case rEndCS hpc =>
      have hstart : hasStarting u.g.log := ihE (by rw [hpc]; trivial)
      refine ⟨⟨fun hpl => absurd hpl (by simp [isPlayingRec]), ihA⟩,
        fun hp => hasStarting_cons _ (ihB hp),
        fun j t hj => hasStarting_cons _ (ihC j t hj),
        fun j t hj => hasStarting_cons _ (ihD j t hj),
        fun _ => hasStarting_cons _ hstart⟩
    case rEndPost hpc =>
      have hstart : hasStarting u.g.log := ihE (by rw [hpc]; trivial)
      exact ⟨ihA, ihB, ihC, ihD, fun _ => hstart⟩

/-! ### Memory-access traces of the operations (for the mutex discipline)

Each operation of the C sources is transcribed below as the sequence of its
accesses to the shared snapshot, each access tagged with whether the shared
mutex is held at that point.  Every access of every function lies between
`semDown(mutex)` and `semUp(mutex)` — except the busy-wait loop of the
referee's `waitForTeams`, which reads `sh->fSt.teamId` after the mutex was
released. -/

/-- A field of the shared snapshot `sh->fSt`. -/
inductive FieldRef
  | playerSlot (i : Nat)
  | goalieSlot (i : Nat)
  | refereeSlot
  | playersFreeFld
  | goaliesFreeFld
  | teamIdFld
deriving DecidableEq, Repr

/-- Direction of an access. -/
inductive RW
  | read
  | write
deriving DecidableEq, Repr

/-- One access to the shared snapshot, tagged with whether the shared mutex
is held when it happens. -/
structure Access where
  ref : FieldRef
  rw : RW
  mutexHeld : Bool
deriving DecidableEq, Repr

/-- Modelled from the spec: `saveState` (logging.c is not part of the
provided sources) serialises the entire snapshot, reading every field; the
C sources call it only inside the mutex-protected sections. -/
def saveStateAccesses (cfg : Config) (held : Bool) : List Access :=
  [Access.mk FieldRef.refereeSlot RW.read held,
   Access.mk FieldRef.playersFreeFld RW.read held,
   Access.mk FieldRef.goaliesFreeFld RW.read held,
   Access.mk FieldRef.teamIdFld RW.read held] ++
  (List.range cfg.NUMPLAYERS).map
    (fun i => Access.mk (FieldRef.playerSlot i) RW.read held) ++
  (List.range cfg.NUMGOALIES).map
    (fun i => Access.mk (FieldRef.goalieSlot i) RW.read held)

/-- The access pattern shared by `arrive`, `waitReferee` and `playUntilEnd`
of the three processes: one slot write followed by `saveState`, all under
the mutex. -/
def slotWriteThenSave (cfg : Config) (fld : FieldRef) : List Access :=
  Access.mk fld RW.write true :: saveStateAccesses cfg true

/-- Accesses of `arrive` in semSharedMemPlayer.c. -/
def playerArriveAccesses (cfg : Config) (id : Nat) : List Access :=
  slotWriteThenSave cfg (FieldRef.playerSlot id)

/-- Accesses of `playerConstituteTeam`, split by its branch: the predicate
reads both counters, the leader branch read-modify-writes `teamId` and both
counters and writes its slot; the other branch writes its slot; both end
with `saveState`.  Everything is inside the mutex-protected section. -/
def playerConstituteAccesses (cfg : Config) (id : Nat) (lead : Bool) :
    List Access :=
  Access.mk FieldRef.playersFreeFld RW.read true ::
  Access.mk FieldRef.goaliesFreeFld RW.read true ::
  (if lead then
    [Access.mk FieldRef.teamIdFld RW.read true,
     Access.mk FieldRef.teamIdFld RW.write true,
     Access.mk FieldRef.playersFreeFld RW.read true,
     Access.mk FieldRef.playersFreeFld RW.write true,
     Access.mk FieldRef.goaliesFreeFld RW.read true,
     Access.mk FieldRef.goaliesFreeFld RW.write true,
     Access.mk (FieldRef.playerSlot id) RW.write true]
   else [Access.mk (FieldRef.playerSlot id) RW.write true]) ++
  saveStateAccesses cfg true

/-- Accesses of `waitReferee` in semSharedMemPlayer.c (the initial semaphore
wait touches no snapshot field). -/
def playerWaitRefereeAccesses (cfg : Config) (id : Nat) : List Access :=
  slotWriteThenSave cfg (FieldRef.playerSlot id)

/-- Accesses of `playUntilEnd` in semSharedMemPlayer.c. -/
def playerPlayUntilEndAccesses (cfg : Config) (id : Nat) : List Access :=
  slotWriteThenSave cfg (FieldRef.playerSlot id)

/-- Accesses of `arrive` in semSharedMemGoalie.c. -/
def goalieArriveAccesses (cfg : Config) (id : Nat) : List Access :=
  slotWriteThenSave cfg (FieldRef.goalieSlot id)

/-- Accesses of `goalieConstituteTeam` (mirror of the player version). -/
def goalieConstituteAccesses (cfg : Config) (id : Nat) (lead : Bool) :
    List Access :=
  Access.mk FieldRef.playersFreeFld RW.read true ::
  Access.mk FieldRef.goaliesFreeFld RW.read true ::
  (if lead then
    [Access.mk FieldRef.teamIdFld RW.read true,
     Access.mk FieldRef.teamIdFld RW.write true,
     Access.mk FieldRef.playersFreeFld RW.read true,
     Access.mk FieldRef.playersFreeFld RW.write true,
     Access.mk FieldRef.goaliesFreeFld RW.read true,
     Access.mk FieldRef.goaliesFreeFld RW.write true,
     Access.mk (FieldRef.goalieSlot id) RW.write true]
   else [Access.mk (FieldRef.goalieSlot id) RW.write true]) ++
  saveStateAccesses cfg true

/-- Accesses of `waitReferee` in semSharedMemGoalie.c. -/
def goalieWaitRefereeAccesses (cfg : Config) (id : Nat) : List Access :=
  slotWriteThenSave cfg (FieldRef.goalieSlot id)

/-- Accesses of `playUntilEnd` in semSharedMemGoalie.c. -/
def goaliePlayUntilEndAccesses (cfg : Config) (id : Nat) : List Access :=
  slotWriteThenSave cfg (FieldRef.goalieSlot id)

/-- Accesses of `arrive` in semSharedMemReferee.c. -/
def refereeArriveAccesses (cfg : Config) : List Access :=
  slotWriteThenSave cfg FieldRef.refereeSlot

/-- Accesses of `waitForTeams` in semSharedMemReferee.c: the WAITING_TEAMS
publication under the mutex, then the busy-wait loop
`while (sh->fSt.teamId < 3) usleep(1000);`, which evaluates its condition
`polls + 1` times after the mutex has been released. -/
def waitForTeamsAccesses (cfg : Config) (polls : Nat) : List Access :=
  slotWriteThenSave cfg FieldRef.refereeSlot ++
  (List.range (polls + 1)).map
    (fun _ => Access.mk FieldRef.teamIdFld RW.read false)

/-- Accesses of `startGame` in semSharedMemReferee.c (the trailing `semUp`
touches no snapshot field). -/
def startGameAccesses (cfg : Config) : List Access :=
  slotWriteThenSave cfg FieldRef.refereeSlot

/-- Accesses of `play` in semSharedMemReferee.c. -/
def playAccesses (cfg : Config) : List Access :=
  slotWriteThenSave cfg FieldRef.refereeSlot

/-- Accesses of `endGame` in semSharedMemReferee.c. -/
def endGameAccesses (cfg : Config) : List Access :=
  slotWriteThenSave cfg FieldRef.refereeSlot

/-- All accesses of the list hold the mutex. -/
def allHeld (l : List Access) : Bool := l.all (fun a => a.mutexHeld)

theorem allHeld_saveState (cfg : Config) :
    allHeld (saveStateAccesses cfg true) = true := by
  simp [allHeld, saveStateAccesses, List.all_eq_true]

theorem saveState_held_of_mem (cfg : Config) :
    ∀ a ∈ saveStateAccesses cfg true, a.mutexHeld = true := by
  have h := allHeld_saveState cfg
  simpa [allHeld, List.all_eq_true] using h

theorem allHeld_slotWrite (cfg : Config) (fld : FieldRef) :
    allHeld (slotWriteThenSave cfg fld) = true := by
  simp only [slotWriteThenSave, allHeld, List.all_cons, Bool.and_eq_true]
  exact ⟨trivial, allHeld_saveState cfg⟩

/-! ### The id validation of the player and goalie mains -/

/-- The C cast `(unsigned int) v` applied to the `long` result of `strtol`
(32-bit `unsigned int`). -/
def toUInt32cast (v : Int) : Nat := (v % (2 ^ 32 : Int)).toNat

/-- The conversion of a 32-bit unsigned value back to `int` performed by the
assignment `int n = (unsigned int) strtol(...)` (two's complement): values
of at least `2^31` wrap to negatives. -/
def toInt32cast (n : Nat) : Int :=
  if n % 2 ^ 32 < 2 ^ 31 then ((n % 2 ^ 32 : Nat) : Int)
  else ((n % 2 ^ 32 : Nat) : Int) - 2 ^ 32

/-- The id validation of `main` in semSharedMemPlayer.c:
`n = (unsigned int) strtol (argv[1], &tinp, 0)` stored into `int n`; the
process is rejected iff the argument had a non-numeric suffix
(`*tinp != 0`, here `numeric = false`) or `n >= NUMPLAYERS` as a signed
comparison. -/
def playerIdRejected (cfg : Config) (numeric : Bool) (v : Int) : Bool :=
  !numeric || decide ((cfg.NUMPLAYERS : Int) ≤ toInt32cast (toUInt32cast v))

/-- The id validation of `main` in semSharedMemGoalie.c (bound
`NUMGOALIES`). -/
def goalieIdRejected (cfg : Config) (numeric : Bool) (v : Int) : Bool :=
  !numeric || decide ((cfg.NUMGOALIES : Int) ≤ toInt32cast (toUInt32cast v))

/-! ### Whole-operation state transformations (for the frame properties) -/

/-- `waitReferee` of semSharedMemPlayer.c as a transformation of the shared
state: the semaphore wait followed by the critical section. -/
def playerWaitRefereeOp (id : Nat) (g : GameSt) : GameSt :=
  playerPlayCS id { g with playersWaitReferee := g.playersWaitReferee - 1 }

/-- `playUntilEnd` of semSharedMemPlayer.c as a transformation of the shared
state. -/
def playerPlayUntilEndOp (id : Nat) (g : GameSt) : GameSt :=
  playerEndCS id { g with playersWaitEnd := g.playersWaitEnd - 1 }

/-- `waitReferee` of semSharedMemGoalie.c as a transformation of the shared
state. -/
def goalieWaitRefereeOp (id : Nat) (g : GameSt) : GameSt :=
  goaliePlayCS id { g with playersWaitReferee := g.playersWaitReferee - 1 }

/-- `playUntilEnd` of semSharedMemGoalie.c as a transformation of the shared
state. -/
def goaliePlayUntilEndOp (id : Nat) (g : GameSt) : GameSt :=
  goalieEndCS id { g with playersWaitEnd := g.playersWaitEnd - 1 }

/-! ### A run that reaches a PLAYING log record -/

/-- Players 0 and 1 arrive and constitute (both lead) under the default
configuration, driving `teamId` to 3. -/
def playPrefix : Sys :=
  doPConstitute defaultConfig 1 (doPArrive 1
    (doPConstitute defaultConfig 0 (doPArrive 0 (initSys defaultConfig))))

/-- The referee then arrives, publishes WAITING_TEAMS, leaves the busy-wait
loop, publishes STARTING_GAME and posts the start semaphore once. -/
def playReferee : Sys :=
  doRStartPost (doRStartCS (doRPollExit (doRWaitCS (doRArrive playPrefix))))

/-- Player 0 consumes the start signal and publishes PLAYING. -/
def playSys : Sys :=
  doPPlay 0 1 (doPSemDownStart 0 1 playReferee)

theorem reach_playSys : Reach defaultConfig playSys := by
  have hP : Reach defaultConfig playPrefix :=
    Reach.step (Reach.step (Reach.step (Reach.step Reach.init
      (Step.pArrive _ 0 (by decide) rfl))
      (Step.pConstitute _ 0 (by decide) (by decide)))
      (Step.pArrive _ 1 (by decide) (by decide)))
      (Step.pConstitute _ 1 (by decide) (by decide))
  have hR : Reach defaultConfig playReferee :=
    Reach.step (Reach.step (Reach.step (Reach.step (Reach.step hP
      (Step.rArrive _ (by decide)))
      (Step.rWaitCS _ (by decide)))
      (Step.rPollExit _ (by decide) (by decide)))
      (Step.rStartCS _ (by decide)))
      (Step.rStartPost _ (by decide))
  exact Reach.step (Reach.step hR
    (Step.pSemDownStart _ 0 1 (by decide) (by decide) (by decide)))
    (Step.pPlay _ 0 1 (by decide))

/-- An entry state of the C1 scenario: the formation predicate is false
(only 3 free players) while teams are still possible (`teamId = 2`, at most
`NUMTEAMS`). -/
def shortState : GameSt :=
  { initGame defaultConfig with playersFree := 3, goaliesFree := 2, teamId := 2 }

/-! ### Claims -/

/-- C1: at an entry state where the formation predicate is false but teams
are still possible (`teamId ≤ NUMTEAMS`), `playerConstituteTeam` and
`goalieConstituteTeam` do not park the caller as a follower: they set the
caller's slot to LATE and return 0 (the functions have no follower branch,
contradicting both the claim and their own doc comments). -/
theorem constituteTeam_no_follower_branch :
    ¬ canForm defaultConfig shortState ∧
    shortState.teamId ≤ defaultConfig.NUMTEAMS ∧
    (playerConstituteTeam defaultConfig 5 shortState).1 = 0 ∧
    (playerConstituteTeam defaultConfig 5 shortState).2.playerStat 5 =
      some ActorState.LATE ∧
    (goalieConstituteTeam defaultConfig 1 shortState).1 = 0 ∧
    (goalieConstituteTeam defaultConfig 1 shortState).2.goalieStat 1 =
      some ActorState.LATE := by
  decide

/-- C2: a complete serial schedule of the exact-fit configuration
(`NUM_PLAYERS = 8`, `NUM_GOALIES = 2`): after every player and goalie has
arrived and run its constitute operation and every actor with team 0 has
exited, 6 players and 2 goalies have terminated in state LATE — not the 0
the claim demands (`NUM_PLAYERS − 2·PLAYERS_PER_TEAM = 0`). -/
theorem exactFit_run_late_counts :
    Reach defaultConfig serialDone ∧
    countStat serialDone.g.playerStat ActorState.LATE defaultConfig.NUMPLAYERS = 6 ∧
    countStat serialDone.g.goalieStat ActorState.LATE defaultConfig.NUMGOALIES = 2 ∧
    countPC serialDone.ppc PPC.done defaultConfig.NUMPLAYERS = 6 ∧
    countPC serialDone.gpc PPC.done defaultConfig.NUMGOALIES = 2 ∧
    defaultConfig.NUMPLAYERS - 2 * defaultConfig.NUMTEAMPLAYERS = 0 :=
  ⟨reach_serialDone, by decide, by decide, by decide, by decide, by decide⟩

/-- C3: when the formation predicate holds on entry, both constitute
operations return the entry `teamId`, increment `teamId` by one, decrement
`playersFree` by exactly `NUMTEAMPLAYERS` and `goaliesFree` by exactly
`NUMTEAMGOALIES`, and set the caller's own slot to FORMING_TEAM. -/
theorem constituteTeam_leader_branch (cfg : Config) (id : Nat) (g : GameSt)
    (hp : cfg.NUMTEAMPLAYERS ≤ g.playersFree)
    (hg : cfg.NUMTEAMGOALIES ≤ g.goaliesFree) :
    (playerConstituteTeam cfg id g).1 = g.teamId ∧
    (playerConstituteTeam cfg id g).2.teamId = g.teamId + 1 ∧
    (playerConstituteTeam cfg id g).2.playersFree + cfg.NUMTEAMPLAYERS =
      g.playersFree ∧
    (playerConstituteTeam cfg id g).2.goaliesFree + cfg.NUMTEAMGOALIES =
      g.goaliesFree ∧
    (playerConstituteTeam cfg id g).2.playerStat id =
      some ActorState.FORMING_TEAM ∧
    (goalieConstituteTeam cfg id g).1 = g.teamId ∧
    (goalieConstituteTeam cfg id g).2.teamId = g.teamId + 1 ∧
    (goalieConstituteTeam cfg id g).2.playersFree + cfg.NUMTEAMPLAYERS =
      g.playersFree ∧
    (goalieConstituteTeam cfg id g).2.goaliesFree + cfg.NUMTEAMGOALIES =
      g.goaliesFree ∧
    (goalieConstituteTeam cfg id g).2.goalieStat id =
      some ActorState.FORMING_TEAM := by
  have hc : canForm cfg g := ⟨hp, hg⟩
  refine ⟨?_, ?_, ?_, ?_, ?_, ?_, ?_, ?_, ?_, ?_⟩ <;>
    simp [playerConstituteTeam, goalieConstituteTeam, if_pos hc, setSlot] <;>
    omega

theorem constituteTeam_leader_branch_witness :
    defaultConfig.NUMTEAMPLAYERS ≤ (initGame defaultConfig).playersFree ∧
    defaultConfig.NUMTEAMGOALIES ≤ (initGame defaultConfig).goaliesFree ∧
    (playerConstituteTeam defaultConfig 0 (initGame defaultConfig)).1 =
      (initGame defaultConfig).teamId ∧
    (playerConstituteTeam defaultConfig 0 (initGame defaultConfig)).2.teamId =
      (initGame defaultConfig).teamId + 1 :=
  ⟨by decide, by decide,
   (constituteTeam_leader_branch defaultConfig 0 (initGame defaultConfig)
      (by decide) (by decide)).1,
   (constituteTeam_leader_branch defaultConfig 0 (initGame defaultConfig)
      (by decide) (by decide)).2.1⟩

/-- C4: `startGame` posts the start condition exactly once (one `semUp` on
`playersWaitReferee`) and `endGame` posts the end condition exactly once —
not the `2·(PLAYERS_PER_TEAM + GOALIES_PER_TEAM) = 10` posts the claim
demands. -/
theorem startGame_endGame_single_post (g : GameSt) :
    (startGame g).playersWaitReferee = g.playersWaitReferee + 1 ∧
    (startGame g).playersWaitEnd = g.playersWaitEnd ∧
    (endGame g).playersWaitEnd = g.playersWaitEnd + 1 ∧
    (endGame g).playersWaitReferee = g.playersWaitReferee ∧
    (1 : Nat) ≠
      2 * (defaultConfig.NUMTEAMPLAYERS + defaultConfig.NUMTEAMGOALIES) :=
  ⟨rfl, rfl, rfl, rfl, by decide⟩

/-- C5 counterexample: under the valid configuration with 12 players and 3
goalies, three constitute calls in a row each find the formation predicate
true, and the reachable state `overrunSys` has `teamId = 4 > 3` — the code
has no `NUM_TEAMS` guard. -/
theorem teamId_exceeds_three :
    Config.valid bigConfig ∧ Reach bigConfig overrunSys ∧
    overrunSys.g.teamId = 4 :=
  ⟨by decide, reach_overrunSys, by decide⟩

/-- C5 amended: under the configured populations (`NUM_PLAYERS = 8`,
`NUM_GOALIES = 2`), every reachable state has `teamId ∈ {1, 2, 3}`, and
`teamId = 3` exactly when two leader branches have succeeded. -/
theorem teamId_range_default (s : Sys) (h : Reach defaultConfig s) :
    1 ≤ s.g.teamId ∧ s.g.teamId ≤ 3 ∧
    (s.g.teamId = 3 ↔ s.formed = 2) := by
  obtain ⟨h1, h2, h3⟩ := counters_invariant h
  have e1 : defaultConfig.NUMTEAMPLAYERS = 4 := rfl
  have e2 : defaultConfig.NUMPLAYERS = 8 := rfl
  rw [e1, e2] at h1
  omega

theorem teamId_range_default_witness :
    1 ≤ (initSys defaultConfig).g.teamId ∧
    (initSys defaultConfig).g.teamId ≤ 3 ∧
    ((initSys defaultConfig).g.teamId = 3 ↔ (initSys defaultConfig).formed = 2) :=
  teamId_range_default (initSys defaultConfig) Reach.init

/-- C6: in every reachable state, `playersFree + NUMTEAMPLAYERS · formed =
NUMPLAYERS` and `goaliesFree + NUMTEAMGOALIES · formed = NUMGOALIES`, where
`formed` counts the successful leader branches so far; since `Reach` closes
under every operation of the system, every operation preserves the two
equations. -/
theorem counter_conservation (cfg : Config) (s : Sys) (h : Reach cfg s) :
    s.g.playersFree + cfg.NUMTEAMPLAYERS * s.formed = cfg.NUMPLAYERS ∧
    s.g.goaliesFree + cfg.NUMTEAMGOALIES * s.formed = cfg.NUMGOALIES :=
  ⟨(counters_invariant h).1, (counters_invariant h).2.1⟩

theorem counter_conservation_witness :
    (initSys defaultConfig).g.playersFree +
      defaultConfig.NUMTEAMPLAYERS * (initSys defaultConfig).formed =
      defaultConfig.NUMPLAYERS ∧
    (initSys defaultConfig).g.goaliesFree +
      defaultConfig.NUMTEAMGOALIES * (initSys defaultConfig).formed =
      defaultConfig.NUMGOALIES :=
  counter_conservation defaultConfig (initSys defaultConfig) Reach.init

/-- C7 counterexample: the access trace of the referee's `waitForTeams`
contains an access performed without the mutex (the busy-wait read of
`teamId`), so not every shared-snapshot access holds the mutex. -/
theorem mutex_discipline_counterexample :
    allHeld (waitForTeamsAccesses defaultConfig 0) = false := by
  decide

/-- C7 amended: every access of every operation of the three processes holds
the mutex, except the busy-wait poll of `waitForTeams`, whose mutex-free
accesses are exactly reads of `teamId`. -/
theorem mutex_discipline_amended (cfg : Config) (id : Nat) (lead : Bool)
    (polls : Nat) :
    allHeld (playerArriveAccesses cfg id) = true ∧
    allHeld (playerConstituteAccesses cfg id lead) = true ∧
    allHeld (playerWaitRefereeAccesses cfg id) = true ∧
    allHeld (playerPlayUntilEndAccesses cfg id) = true ∧
    allHeld (goalieArriveAccesses cfg id) = true ∧
    allHeld (goalieConstituteAccesses cfg id lead) = true ∧
    allHeld (goalieWaitRefereeAccesses cfg id) = true ∧
    allHeld (goaliePlayUntilEndAccesses cfg id) = true ∧
    allHeld (refereeArriveAccesses cfg) = true ∧
    allHeld (startGameAccesses cfg) = true ∧
    allHeld (playAccesses cfg) = true ∧
    allHeld (endGameAccesses cfg) = true ∧
    (∀ a ∈ waitForTeamsAccesses cfg polls,
      a.mutexHeld = false → a.ref = FieldRef.teamIdFld ∧ a.rw = RW.read) := by
  refine ⟨allHeld_slotWrite cfg _, ?_, allHeld_slotWrite cfg _,
    allHeld_slotWrite cfg _, allHeld_slotWrite cfg _, ?_,
    allHeld_slotWrite cfg _, allHeld_slotWrite cfg _, allHeld_slotWrite cfg _,
    allHeld_slotWrite cfg _, allHeld_slotWrite cfg _, allHeld_slotWrite cfg _,
    ?_⟩
  · have hs := allHeld_saveState cfg
    cases lead <;>
      simp_all [playerConstituteAccesses, allHeld, List.all_cons,
        List.all_append]
  · have hs := allHeld_saveState cfg
    cases lead <;>
      simp_all [goalieConstituteAccesses, allHeld, List.all_cons,
        List.all_append]
  · intro a ha hfalse
    simp only [waitForTeamsAccesses, slotWriteThenSave, List.cons_append,
      List.mem_cons, List.mem_append, List.mem_map, List.mem_range] at ha
    rcases ha with rfl | ha | ⟨i, hi, rfl⟩
    · cases hfalse
    · have := saveState_held_of_mem cfg a ha
      rw [this] at hfalse
      cases hfalse
    · exact ⟨rfl, rfl⟩

theorem mutex_discipline_amended_witness :
    Access.mk FieldRef.teamIdFld RW.read false ∈
      waitForTeamsAccesses defaultConfig 0 ∧
    (Access.mk FieldRef.teamIdFld RW.read false).mutexHeld = false ∧
    (Access.mk FieldRef.teamIdFld RW.read false).ref = FieldRef.teamIdFld ∧
    (Access.mk FieldRef.teamIdFld RW.read false).rw = RW.read :=
  ⟨by decide, rfl,
   ((mutex_discipline_amended defaultConfig 0 true 0).2.2.2.2.2.2.2.2.2.2.2.2
      (Access.mk FieldRef.teamIdFld RW.read false) (by decide) rfl).1,
   ((mutex_discipline_amended defaultConfig 0 true 0).2.2.2.2.2.2.2.2.2.2.2.2
      (Access.mk FieldRef.teamIdFld RW.read false) (by decide) rfl).2⟩

/-- C8: in every reachable state of every configuration, the log (newest
first) satisfies `startBeforePlay`: the referee's STARTING_GAME record
occurs strictly before every teammate's PLAYING record — each teammate
publishes PLAYING only after consuming a start signal, and the semaphore is
posted only after STARTING_GAME has been logged. -/
theorem starting_before_playing (cfg : Config) (s : Sys) (h : Reach cfg s) :
    startBeforePlay s.g.log :=
  (startInv_reach h).1

theorem starting_before_playing_witness : startBeforePlay playSys.g.log :=
  starting_before_playing defaultConfig playSys reach_playSys

/-- C9: the id validation of the player and goalie mains does not reject
negative ids: the value -1 passes the check (the unsigned cast wraps and the
signed comparison `n >= NUMPLAYERS` is false), while ids at or above the
population bound and non-numeric arguments are rejected. -/
theorem negative_id_not_rejected :
    playerIdRejected defaultConfig true (-1) = false ∧
    toInt32cast (toUInt32cast (-1)) = -1 ∧
    goalieIdRejected defaultConfig true (-1) = false ∧
    playerIdRejected defaultConfig true 8 = true ∧
    goalieIdRejected defaultConfig true 2 = true ∧
    playerIdRejected defaultConfig false 0 = true := by
  decide

/-- C10: `arrive`, `waitReferee` and `playUntilEnd` of both players and
goalies modify only the calling actor's own slot: the counters, `teamId`,
the referee's slot and every other actor's slot are unchanged — `j` ranges
over the other actors of the caller's own role, and `k` over all actors of
the other role (including the one sharing the caller's index). -/
theorem actor_ops_frame (id j k : Nat) (g : GameSt) (hne : j ≠ id) :
    (playerArrive id g).playersFree = g.playersFree ∧
    (playerArrive id g).goaliesFree = g.goaliesFree ∧
    (playerArrive id g).teamId = g.teamId ∧
    (playerArrive id g).refereeStat = g.refereeStat ∧
    (playerArrive id g).playerStat j = g.playerStat j ∧
    (playerArrive id g).goalieStat k = g.goalieStat k ∧
    (playerWaitRefereeOp id g).playersFree = g.playersFree ∧
    (playerWaitRefereeOp id g).goaliesFree = g.goaliesFree ∧
    (playerWaitRefereeOp id g).teamId = g.teamId ∧
    (playerWaitRefereeOp id g).refereeStat = g.refereeStat ∧
    (playerWaitRefereeOp id g).playerStat j = g.playerStat j ∧
    (playerWaitRefereeOp id g).goalieStat k = g.goalieStat k ∧
    (playerPlayUntilEndOp id g).playersFree = g.playersFree ∧
    (playerPlayUntilEndOp id g).goaliesFree = g.goaliesFree ∧
    (playerPlayUntilEndOp id g).teamId = g.teamId ∧
    (playerPlayUntilEndOp id g).refereeStat = g.refereeStat ∧
    (playerPlayUntilEndOp id g).playerStat j = g.playerStat j ∧
    (playerPlayUntilEndOp id g).goalieStat k = g.goalieStat k ∧
    (goalieArrive id g).playersFree = g.playersFree ∧
    (goalieArrive id g).goaliesFree = g.goaliesFree ∧
    (goalieArrive id g).teamId = g.teamId ∧
    (goalieArrive id g).refereeStat = g.refereeStat ∧
    (goalieArrive id g).goalieStat j = g.goalieStat j ∧
    (goalieArrive id g).playerStat k = g.playerStat k ∧
    (goalieWaitRefereeOp id g).playersFree = g.playersFree ∧
    (goalieWaitRefereeOp id g).goaliesFree = g.goaliesFree ∧
    (goalieWaitRefereeOp id g).teamId = g.teamId ∧
    (goalieWaitRefereeOp id g).refereeStat = g.refereeStat ∧
    (goalieWaitRefereeOp id g).goalieStat j = g.goalieStat j ∧
    (goalieWaitRefereeOp id g).playerStat k = g.playerStat k ∧
    (goaliePlayUntilEndOp id g).playersFree = g.playersFree ∧
    (goaliePlayUntilEndOp id g).goaliesFree = g.goaliesFree ∧
    (goaliePlayUntilEndOp id g).teamId = g.teamId ∧
    (goaliePlayUntilEndOp id g).refereeStat = g.refereeStat ∧
    (goaliePlayUntilEndOp id g).goalieStat j = g.goalieStat j ∧
    (goaliePlayUntilEndOp id g).playerStat k = g.playerStat k := by
  refine ⟨rfl, rfl, rfl, rfl, ?_, rfl, rfl, rfl, rfl, rfl, ?_, rfl,
    rfl, rfl, rfl, rfl, ?_, rfl, rfl, rfl, rfl, rfl, ?_, rfl,
    rfl, rfl, rfl, rfl, ?_, rfl, rfl, rfl, rfl, rfl, ?_, rfl⟩ <;>
    simp [playerArrive, goalieArrive, playerWaitRefereeOp, playerPlayUntilEndOp,
      goalieWaitRefereeOp, goaliePlayUntilEndOp, playerPlayCS, playerEndCS,
      goaliePlayCS, goalieEndCS, setSlot, hne]

theorem actor_ops_frame_witness :
    (1 : Nat) ≠ 0 ∧
    (playerArrive 0 (initGame defaultConfig)).playersFree =
      (initGame defaultConfig).playersFree ∧
    (playerArrive 0 (initGame defaultConfig)).goalieStat 0 =
      (initGame defaultConfig).goalieStat 0 ∧
    (goalieWaitRefereeOp 0 (initGame defaultConfig)).playerStat 0 =
      (initGame defaultConfig).playerStat 0 := by
  obtain ⟨h1, -, -, -, -, h6, -, -, -, -, -, -, -, -, -, -, -, -,
    -, -, -, -, -, -, -, -, -, -, -, h30, -, -, -, -, -, -⟩ :=
    actor_ops_frame 0 1 0 (initGame defaultConfig) (by decide)
  exact ⟨by decide, h1, h6, h30⟩

end SoccerGame
